import Mathlib

/-!
Shallow embedding of the LTA worker tier (Picker, Locator, RucioStager)
from `src/lta/picker.py`, `src/lta/locator.py`, `src/lta/rucio_stager.py`.

REST traffic is modelled by explicit effect records: each worker function
returns the list of File Catalog fetches it performed, the quarantine
causes it sent, the `bulk_create` call bodies it posted, the PATCH bodies
it issued and, for the stager, the filesystem operations it requested.
-/

namespace LTA

/-- JSON-like scalar values appearing in PATCH bodies and catalog locations. -/
inductive JVal where
  | jstr (s : String)
  | jbool (b : Bool)
  | jnum (n : Int)
deriving DecidableEq, Repr

/-- Left portion of a path before the first `:`, as Python `p.split(":")[0]`. -/
def keepPath (p : String) : String :=
  (p.splitOn ":").headD p

/-- Final path component after the last `/`, as `os.path.basename`. -/
def basename (p : String) : String :=
  (p.splitOn "/").getLastD p

/-- Prefix of a file name before the first `.`, as Python `n.split(".")[0]`. -/
def uuidPrefix (n : String) : String :=
  (n.splitOn ".").headD n

/-- `os.path.join` restricted to the two-argument form the stager uses. -/
def pathJoin (a b : String) : String :=
  if b.startsWith "/" then b
  else if a = "" then b
  else if a.endsWith "/" then a ++ b
  else a ++ "/" ++ b

/-- An entry of a File Catalog page: the `keys=uuid` projection. -/
structure FileRef where
  uuid : String
deriving DecidableEq, Repr

/-- One location entry of a File Catalog record.  The `archive` key may be
absent (`none`) and, when present, holds an arbitrary JSON value: the
locator only honours a value that is strictly the boolean `true`. -/
structure Location where
  site : String
  path : String
  archive : Option JVal
deriving DecidableEq, Repr

/-- A full File Catalog record, as fetched by `GET /api/files/<uuid>`,
restricted to the fields the Picker and Locator consume. -/
structure CatalogRecord where
  checksum : String
  file_size : Nat
  logical_name : String
  meta_modify_date : String
  uuid : String
  locations : List Location
deriving DecidableEq, Repr

/-- A File Catalog record of an archive bundle, as fetched by the Locator
for a bundle uuid; it carries the application-private `lta` sub-object. -/
structure ArchiveRecord where
  checksum : String
  file_size : Nat
  logical_name : String
  meta_modify_date : String
  uuid : String
  lta_bundle_path : String
  lta_checksum : String
deriving DecidableEq, Repr

/-- A TransferRequest as popped from the LTA DB (the fields workers read). -/
structure TransferRequest where
  uuid : String
  source : String
  dest : String
  path : String
deriving DecidableEq, Repr

/-- The five-key minimal catalog projection kept inside a Bundle. -/
structure BundleRecord where
  checksum : String
  file_size : Nat
  logical_name : String
  meta_modify_date : String
  uuid : String
deriving DecidableEq, Repr

/-- `picker.as_bundle_record`: cherry-pick the five keys of a catalog record. -/
def as_bundle_record (r : CatalogRecord) : BundleRecord :=
  { checksum := r.checksum
    file_size := r.file_size
    logical_name := r.logical_name
    meta_modify_date := r.meta_modify_date
    uuid := r.uuid }

/-- `locator.as_lta_record`: cherry-pick the five keys of an archive record. -/
def as_lta_record (r : ArchiveRecord) : BundleRecord :=
  { checksum := r.checksum
    file_size := r.file_size
    logical_name := r.logical_name
    meta_modify_date := r.meta_modify_date
    uuid := r.uuid }

/-! ## File Catalog paging (`picker.py` lines 140-152, `locator.py` 150-162) -/

def FILE_CATALOG_LIMIT : Nat := 9000

/-- One `GET /api/files?...` request: its `start` offset and whether the
`keys=uuid` parameter was included. -/
structure PageReq where
  start : Nat
  keysUuid : Bool
deriving DecidableEq, Repr

/-- The `while num_files == FILE_CATALOG_LIMIT` paging loop.  The catalog
server is abstracted as `pages : Nat -> List FileRef`, the page returned
for a given `start` offset; `fuel` bounds the number of loop iterations.
Returns the files accumulated by the loop and the requests it issued. -/
def pageLoop (pages : Nat → List FileRef) :
    Nat → Nat → Nat → List FileRef × List PageReq
  | 0, _, _ => ([], [])
  | Nat.succ fuel, page_start, num_files =>
    if num_files = FILE_CATALOG_LIMIT then
      let next_start := page_start + num_files
      let page := pages next_start
      let rest := pageLoop pages fuel next_start page.length
      (page ++ rest.1, { start := next_start, keysUuid := false } :: rest.2)
    else ([], [])

/-- The whole file-discovery phase: the first request carries `keys=uuid`
and `start=0`; the loop then pages while pages come back exactly full. -/
def catalogDiscover (pages : Nat → List FileRef) (fuel : Nat) :
    List FileRef × List PageReq :=
  let page := pages 0
  let rest := pageLoop pages fuel 0 page.length
  (page ++ rest.1, { start := 0, keysUuid := true } :: rest.2)

/-! ## Bin packing

Modelled from the spec: the third-party `binpacking.to_constant_volume`
called at `picker.py` line 173 is not part of this repository's sources;
the spec describes its policy as "items are sorted by size descending and
placed greedily into the first bin that still has room; a new bin is
opened only when no existing bin admits the item". -/

/-- Summed weight of one bin. -/
def binWeight (b : List (Nat × α)) : Nat :=
  (b.map Prod.fst).sum

/-- Modelled from the spec: place one item into the first bin that still
has room under volume `B`; open a new bin when no existing bin admits it. -/
def placeItem (B : Nat) (item : Nat × α) :
    List (List (Nat × α)) → List (List (Nat × α))
  | [] => [[item]]
  | bin :: rest =>
    if binWeight bin + item.1 ≤ B then (bin ++ [item]) :: rest
    else bin :: placeItem B item rest

/-- Stable insertion into a size-descending list. -/
def sortedInsertDesc (x : Nat × α) : List (Nat × α) → List (Nat × α)
  | [] => [x]
  | y :: ys => if x.1 ≥ y.1 then x :: y :: ys else y :: sortedInsertDesc x ys

/-- Stable sort by size descending. -/
def sortBySizeDesc : List (Nat × α) → List (Nat × α)
  | [] => []
  | x :: xs => sortedInsertDesc x (sortBySizeDesc xs)

/-- Modelled from the spec: `binpacking.to_constant_volume(items, B, 0)`,
greedy first-fit over items sorted by size (the first tuple component)
descending. -/
def to_constant_volume (items : List (Nat × α)) (B : Nat) :
    List (List (Nat × α)) :=
  (sortBySizeDesc items).foldl (fun bins item => placeItem B item bins) []

/-! ## Quarantine primitives

`picker.py` lines 209-223, `locator.py` 254-269, `rucio_stager.py` 120-135.
All three build the same PATCH body; the PATCH attempt's own outcome is a
parameter (`patchResult`) and the primitive catches any failure, so its
result is always `Except.ok`. -/

/-- The PATCH body built by every quarantine primitive. -/
def quarantineBody (name inst now cause : String) : List (String × JVal) :=
  [("status", JVal.jstr "quarantined"),
   ("reason", JVal.jstr ("BY:" ++ (name ++ "-" ++ inst) ++ " REASON:" ++ cause)),
   ("work_priority_timestamp", JVal.jstr now)]

namespace Picker

/-- `Picker._quarantine_transfer_request`: the PATCH bodies sent (always
the single quarantine PATCH) and the primitive's outcome (a failed PATCH
is caught and logged, never re-raised). -/
def quarantine_transfer_request (name inst now : String) (trUuid cause : String)
    (patchResult : Except String Unit) :
    List (String × List (String × JVal)) × Except String Unit :=
  match patchResult with
  | Except.ok _ => ([(trUuid, quarantineBody name inst now cause)], Except.ok ())
  | Except.error _e => ([(trUuid, quarantineBody name inst now cause)], Except.ok ())

end Picker

namespace Locator

/-- `Locator._quarantine_transfer_request`, identical in shape to the
Picker's primitive. -/
def quarantine_transfer_request (name inst now : String) (trUuid cause : String)
    (patchResult : Except String Unit) :
    List (String × List (String × JVal)) × Except String Unit :=
  match patchResult with
  | Except.ok _ => ([(trUuid, quarantineBody name inst now cause)], Except.ok ())
  | Except.error _e => ([(trUuid, quarantineBody name inst now cause)], Except.ok ())

end Locator

/-! ## Picker (`picker.py` lines 113-207) -/

namespace Picker

/-- The bundle body the Picker posts for one packing list
(`picker.py` lines 184-196). -/
structure Bundle where
  btype : String
  status : String
  reason : String
  request : String
  source : String
  dest : String
  path : String
  files : List BundleRecord
deriving DecidableEq, Repr

/-- Observable effects of one `Picker._do_work_transfer_request` run. -/
structure Effects where
  fetchedUuids : List String
  quarantines : List String
  bulkCreates : List (List Bundle)
deriving DecidableEq, Repr

/-- The full catalog records fetched for the uuids of the discovery phase
(`picker.py` lines 161-164). -/
def catalogRecords (pages : Nat → List FileRef) (fuel : Nat)
    (getRecord : String → CatalogRecord) : List CatalogRecord :=
  ((catalogDiscover pages fuel).1).map (fun f => getRecord f.uuid)

/-- The packing specification: records paired with their sizes and packed
to the destination's `bundle_size` (`picker.py` lines 166-173). -/
def packingSpec (pages : Nat → List FileRef) (fuel : Nat)
    (getRecord : String → CatalogRecord) (bundle_size : Nat) :
    List (List (Nat × CatalogRecord)) :=
  let packing_list :=
    (catalogRecords pages fuel getRecord).map (fun r => (r.file_size, r))
  to_constant_volume packing_list bundle_size

/-- The bundle body built for one packing list (`picker.py` lines 184-196). -/
def mkBundle (tr : TransferRequest) (spec : List (Nat × CatalogRecord)) : Bundle :=
  { btype := "Bundle"
    status := "specified"
    reason := ""
    request := tr.uuid
    source := tr.source
    dest := tr.dest
    path := tr.path
    files := spec.map (fun x => as_bundle_record x.2) }

/-- `Picker._create_bundle` wraps a single bundle into the `bundles` list
of one `bulk_create` POST body (`picker.py` lines 198-207). -/
def create_bundle (bundle : Bundle) : List Bundle :=
  [bundle]

/-- `Picker._do_work_transfer_request`: file discovery, empty-result
quarantine, record fetch, bin packing, cardinality gate, bundle emission.
`sites` is the `bundle_size` column of the site configuration table. -/
def do_work_transfer_request (pages : Nat → List FileRef) (fuel : Nat)
    (getRecord : String → CatalogRecord) (sites : String → Nat)
    (max_file_count : Nat) (tr : TransferRequest) : Effects :=
  let catalog_files := (catalogDiscover pages fuel).1
  if catalog_files = [] then
    { fetchedUuids := []
      quarantines := ["File Catalog returned zero files for the TransferRequest"]
      bulkCreates := [] }
  else
    let bundle_size := sites tr.dest
    let packing_spec := packingSpec pages fuel getRecord bundle_size
    match packing_spec.find? (fun spec => max_file_count < spec.length) with
    | some spec =>
      { fetchedUuids := catalog_files.map (fun f => f.uuid)
        quarantines := ["Bundle packing list contains " ++ toString spec.length ++
          " files; MAX_FILE_COUNT is configured at " ++ toString max_file_count]
        bulkCreates := [] }
    | none =>
      { fetchedUuids := catalog_files.map (fun f => f.uuid)
        quarantines := []
        bulkCreates := packing_spec.map (fun spec => create_bundle (mkBundle tr spec)) }

end Picker

/-! ## Locator (`locator.py` lines 123-252) -/

namespace Locator

/-- The bundle body the Locator posts for one archive record
(`locator.py` lines 185-203). -/
structure Bundle where
  btype : String
  status : String
  claimed : Bool
  verified : Bool
  reason : String
  request : String
  source : String
  dest : String
  path : String
  size : Nat
  bundle_path : String
  checksum : String
  files : List BundleRecord
  catalog : BundleRecord
deriving DecidableEq, Repr

/-- Observable effects of one `Locator._do_work_transfer_request` run. -/
structure Effects where
  fetchedUuids : List String
  fetchedBundleUuids : List String
  quarantines : List String
  bulkCreates : List (List Bundle)
deriving DecidableEq, Repr

/-- The inner location loop of `Locator._get_unique_archives`
(`locator.py` lines 223-232): append the paths of the participating
locations of one record. -/
def collectRecordPaths (source : String) (acc : List String)
    (record : CatalogRecord) : List String :=
  record.locations.foldl (fun acc2 loc =>
    match loc.archive with
    | none => acc2
    | some v =>
      if v = JVal.jbool true ∧ loc.site = source then acc2 ++ [loc.path]
      else acc2) acc

/-- `Locator._get_unique_archives` (`locator.py` lines 217-252): collect
the bundle paths of all participating locations, extract a uuid from each
and keep the first occurrence of each uuid. -/
def get_unique_archives (records : List CatalogRecord) (source : String) :
    List String :=
  let bundle_paths := records.foldl (collectRecordPaths source) []
  bundle_paths.foldl (fun bundle_uuids bundle_path =>
    let uuid := uuidPrefix (basename (keepPath bundle_path))
    if uuid ∈ bundle_uuids then bundle_uuids else bundle_uuids ++ [uuid]) []

/-- The full catalog records fetched for the uuids of the discovery phase
(`locator.py` lines 171-174). -/
def catalogRecords (pages : Nat → List FileRef) (fuel : Nat)
    (getRecord : String → CatalogRecord) : List CatalogRecord :=
  ((catalogDiscover pages fuel).1).map (fun f => getRecord f.uuid)

/-- The bundle body built for one archive record (`locator.py` 185-203). -/
def mkBundle (tr : TransferRequest) (br : ArchiveRecord) : Bundle :=
  { btype := "Bundle"
    status := "located"
    claimed := false
    verified := false
    reason := ""
    request := tr.uuid
    source := tr.source
    dest := tr.dest
    path := tr.path
    size := br.file_size
    bundle_path := br.lta_bundle_path
    checksum := br.lta_checksum
    files := []
    catalog := as_lta_record br }

/-- `Locator._create_bundle` wraps a single bundle into the `bundles`
list of one `bulk_create` POST body (`locator.py` lines 205-215). -/
def create_bundle (bundle : Bundle) : List Bundle :=
  [bundle]

/-- `Locator._do_work_transfer_request`: file discovery, empty-result
quarantine, record fetch, unique-archive extraction, archive-record fetch,
bundle emission.  `getArchive` serves the per-bundle-uuid fetches. -/
def do_work_transfer_request (pages : Nat → List FileRef) (fuel : Nat)
    (getRecord : String → CatalogRecord) (getArchive : String → ArchiveRecord)
    (tr : TransferRequest) : Effects :=
  let catalog_files := (catalogDiscover pages fuel).1
  if catalog_files = [] then
    { fetchedUuids := []
      fetchedBundleUuids := []
      quarantines := ["File Catalog returned zero files for the TransferRequest"]
      bulkCreates := [] }
  else
    let catalog_records := catalogRecords pages fuel getRecord
    let bundle_uuids := get_unique_archives catalog_records tr.source
    let bundle_records := bundle_uuids.map getArchive
    { fetchedUuids := catalog_files.map (fun f => f.uuid)
      fetchedBundleUuids := bundle_uuids
      quarantines := []
      bulkCreates := bundle_records.map (fun br => create_bundle (mkBundle tr br)) }

end Locator

/-! ## RucioStager (`rucio_stager.py` lines 93-187) -/

namespace RucioStager

/-- The configuration fields the stager consumes, plus its identity. -/
structure Env where
  name : String
  instance_uuid : String
  bundler_outbox_path : String
  rucio_inbox_path : String
  dest_quota : Nat
deriving DecidableEq, Repr

/-- A Bundle as popped from the LTA DB (the fields the stager reads). -/
structure StagerBundle where
  uuid : String
  size : Nat
  bundle_path : String
deriving DecidableEq, Repr

/-- A filesystem operation requested by the stager. -/
inductive FsOp where
  | move (src dst : String)
deriving DecidableEq, Repr

/-- Observable effects of one stager processing attempt. -/
structure Effects where
  fsOps : List FsOp
  patches : List (String × List (String × JVal))
deriving DecidableEq, Repr

/-- The PATCH body of `RucioStager._unclaim_bundle`
(`rucio_stager.py` lines 180-184). -/
def unclaim_body (now : String) : List (String × JVal) :=
  [("claimed", JVal.jbool false),
   ("update_timestamp", JVal.jstr now),
   ("work_priority_timestamp", JVal.jstr now)]

/-- `RucioStager._quarantine_bundle` (`rucio_stager.py` lines 120-135):
the PATCH bodies sent and the primitive's outcome (a failed PATCH is
caught and logged, never re-raised). -/
def quarantine_bundle (name inst now : String) (bundleUuid cause : String)
    (patchResult : Except String Unit) :
    List (String × List (String × JVal)) × Except String Unit :=
  match patchResult with
  | Except.ok _ => ([(bundleUuid, quarantineBody name inst now cause)], Except.ok ())
  | Except.error _e => ([(bundleUuid, quarantineBody name inst now cause)], Except.ok ())

/-- `RucioStager._stage_bundle` (`rucio_stager.py` lines 137-173).
`rucio_size` is the measured size of the Rucio inbox; `moveResult` is the
outcome of the `shutil.move` call (its exception message on failure).
Returns the effects performed and either the function's boolean result or
the exception it re-raises. -/
def stage_bundle (env : Env) (now : String) (rucio_size : Nat)
    (bundle : StagerBundle) (moveResult : Except String Unit) :
    Effects × Except String Bool :=
  let total_size := rucio_size + bundle.size
  if total_size > env.dest_quota then
    ({ fsOps := [], patches := [(bundle.uuid, unclaim_body now)] }, Except.ok false)
  else
    let bundle_name := basename bundle.bundle_path
    let src_path := pathJoin env.bundler_outbox_path bundle_name
    let dst_path := pathJoin env.rucio_inbox_path bundle_name
    match moveResult with
    | Except.error e => ({ fsOps := [], patches := [] }, Except.error e)
    | Except.ok _ =>
      ({ fsOps := [FsOp.move src_path dst_path]
         patches := [(bundle.uuid,
           [("bundle_path", JVal.jstr dst_path),
            ("claimed", JVal.jbool false),
            ("status", JVal.jstr "staged"),
            ("reason", JVal.jstr ""),
            ("update_timestamp", JVal.jstr now)])] },
       Except.ok true)

/-- `RucioStager._do_work_claim` (`rucio_stager.py` lines 93-118).
`popped` is the bundle returned by the pop request (or `none`).  Returns
the accumulated effects and `some b` when the handler returns `b`, or
`none` when it re-raises after quarantining. -/
def do_work_claim (env : Env) (now : String) (rucio_size : Nat)
    (popped : Option StagerBundle) (moveResult : Except String Unit) :
    Effects × Option Bool :=
  match popped with
  | none => ({ fsOps := [], patches := [] }, some false)
  | some bundle =>
    match stage_bundle env now rucio_size bundle moveResult with
    | (eff, Except.ok _b) => (eff, some false)
    | (eff, Except.error e) =>
      ({ fsOps := eff.fsOps
         patches := eff.patches ++
           (quarantine_bundle env.name env.instance_uuid now bundle.uuid e
             (Except.ok ())).1 },
       none)

end RucioStager

/-! ## Spec-side definitions for the Locator derivation -/

/-- A location participates per the spec: `archive` strictly the boolean
`true` and `site` equal to the request's source. -/
def participates (source : String) (loc : Location) : Bool :=
  decide (loc.archive = some (JVal.jbool true) ∧ loc.site = source)

/-- The uuid the spec derives from one archive path: keep the portion
before the first `:`, take its basename, keep the prefix before the
first `.`. -/
def archiveUuid (p : String) : String :=
  uuidPrefix (basename (keepPath p))

/-- Keep the first occurrence of each element, in first-seen order. -/
def firstSeen : List String → List String
  | [] => []
  | x :: xs => x :: firstSeen (xs.filter (fun y => y ≠ x))
termination_by l => l.length
decreasing_by
  simp only [List.length_cons]
  exact Nat.lt_succ_of_le (xs.length_filter_le _)

/-- The raw (undeduplicated) uuid sequence of the participating locations,
record order then location order. -/
def rawArchiveUuids (records : List CatalogRecord) (source : String) :
    List String :=
  ((records.map (fun r =>
    (r.locations.filter (participates source)).map Location.path)).flatten).map
    archiveUuid

/-- Modelled from the spec ("A location participates iff ...; collect
distinct uuids in first-seen order"): the bundle-uuid list the Locator is
specified to derive, for comparison with `Locator.get_unique_archives`. -/
def locatorUuidsSpec (records : List CatalogRecord) (source : String) :
    List String :=
  firstSeen (rawArchiveUuids records source)

/-! ## Lemmas: first-seen deduplication -/

theorem firstSeen_nil : firstSeen [] = [] := by
  simp [firstSeen]

theorem firstSeen_cons (x : String) (xs : List String) :
    firstSeen (x :: xs) = x :: firstSeen (xs.filter (fun y => y ≠ x)) := by
  simp [firstSeen]

theorem mem_firstSeen (u : String) (l : List String) :
    u ∈ firstSeen l ↔ u ∈ l := by
  induction l using firstSeen.induct with
  | case1 => simp [firstSeen_nil]
  | case2 x xs ih =>
    rw [firstSeen_cons, List.mem_cons, List.mem_cons, ih]
    by_cases hux : u = x
    · simp [hux]
    · simp [hux, List.mem_filter]

theorem nodup_firstSeen (l : List String) : (firstSeen l).Nodup := by
  induction l using firstSeen.induct with
  | case1 => simp [firstSeen_nil]
  | case2 x xs ih =>
    rw [firstSeen_cons]
    refine List.nodup_cons.mpr ⟨?_, ih⟩
    intro hx
    rw [mem_firstSeen] at hx
    have := (List.mem_filter.mp hx).2
    simp at this

theorem firstSeen_append_of_subset (xs : List String) :
    ∀ ys : List String, (∀ u ∈ ys, u ∈ xs) →
      firstSeen (xs ++ ys) = firstSeen xs := by
  induction xs using firstSeen.induct with
  | case1 =>
    intro ys h
    have : ys = [] := List.eq_nil_iff_forall_not_mem.mpr (by
      intro a ha
      exact absurd (h a ha) (List.not_mem_nil a))
    simp [this]
  | case2 x xs ih =>
    intro ys h
    rw [List.cons_append, firstSeen_cons, firstSeen_cons, List.filter_append]
    congr 1
    apply ih
    intro u hu
    have h1 := List.mem_filter.mp hu
    have h2 := h u h1.1
    rcases List.mem_cons.mp h2 with h3 | h3
    · exact absurd h3 (by simpa using h1.2)
    · exact List.mem_filter.mpr ⟨h3, h1.2⟩

/-- The accumulator-based dedup loop of the Locator computes `firstSeen`. -/
theorem foldl_dedupe_eq_firstSeen (l : List String) :
    ∀ acc : List String,
      l.foldl (fun acc u => if u ∈ acc then acc else acc ++ [u]) acc =
        acc ++ firstSeen (l.filter (fun u => decide (u ∉ acc))) := by
  induction l with
  | nil => intro acc; simp [firstSeen_nil]
  | cons x xs ih =>
    intro acc
    by_cases hx : x ∈ acc
    · rw [List.foldl_cons, if_pos hx, ih acc, List.filter_cons]
      simp [hx]
    · rw [List.foldl_cons, if_neg hx, ih (acc ++ [x]), List.filter_cons]
      have hcx : (fun u => decide (u ∉ acc)) x = true := by simp [hx]
      rw [if_pos hcx, firstSeen_cons, List.filter_filter, List.append_assoc,
        List.singleton_append]
      congr 2
      congr 1
      apply List.filter_congr
      intro u _
      by_cases h1 : u ∈ acc <;> by_cases h2 : u = x <;>
        simp [h1, h2, List.mem_append]

/-! ## Lemmas: the Locator's path collection and dedup loops -/

/-- The inner location loop appends exactly the participating paths. -/
theorem collectRecordPaths_eq (source : String) (acc : List String)
    (r : CatalogRecord) :
    Locator.collectRecordPaths source acc r =
      acc ++ (r.locations.filter (participates source)).map Location.path := by
  unfold Locator.collectRecordPaths
  generalize r.locations = locs
  induction locs generalizing acc with
  | nil => simp
  | cons loc locs ih =>
    rw [List.foldl_cons, List.filter_cons]
    cases harch : loc.archive with
    | none =>
      have : participates source loc = false := by
        simp [participates, harch]
      simp only [harch, this, Bool.false_eq_true, if_false]
      exact ih acc
    | some v =>
      by_cases hv : v = JVal.jbool true ∧ loc.site = source
      · have : participates source loc = true := by
          simp [participates, harch, hv.1, hv.2]
        simp only [harch, if_pos hv, this, if_true, List.map_cons]
        rw [ih (acc ++ [loc.path]), List.append_assoc, List.singleton_append]
      · have : participates source loc = false := by
          simp only [participates, harch, decide_eq_false_iff_not]
          intro hcon
          exact hv ⟨Option.some.inj hcon.1, hcon.2⟩
        simp only [harch, if_neg hv, this, Bool.false_eq_true, if_false]
        exact ih acc

/-- The outer record loop collects all participating paths in order. -/
theorem foldl_collectRecordPaths_eq (source : String)
    (records : List CatalogRecord) :
    ∀ acc : List String,
      records.foldl (Locator.collectRecordPaths source) acc =
        acc ++ (records.map (fun r =>
          (r.locations.filter (participates source)).map Location.path)).flatten := by
  induction records with
  | nil => intro acc; simp
  | cons r records ih =>
    intro acc
    rw [List.foldl_cons, collectRecordPaths_eq, ih, List.map_cons,
      List.flatten_cons, List.append_assoc]

/-- `Locator._get_unique_archives` computes exactly the spec's derivation:
participating paths in order, uuid extraction, first-seen deduplication. -/
theorem get_unique_archives_eq_spec (records : List CatalogRecord)
    (source : String) :
    Locator.get_unique_archives records source =
      locatorUuidsSpec records source := by
  unfold Locator.get_unique_archives locatorUuidsSpec rawArchiveUuids
  rw [foldl_collectRecordPaths_eq, List.nil_append]
  generalize ((records.map (fun r =>
    (r.locations.filter (participates source)).map Location.path)).flatten) = ps
  have hfold :
      ps.foldl (fun bundle_uuids bundle_path =>
        if uuidPrefix (basename (keepPath bundle_path)) ∈ bundle_uuids then
          bundle_uuids
        else bundle_uuids ++ [uuidPrefix (basename (keepPath bundle_path))]) [] =
      (ps.map archiveUuid).foldl (fun acc u =>
        if u ∈ acc then acc else acc ++ [u]) [] := by
    rw [List.foldl_map]
    simp only [archiveUuid]
  rw [hfold, foldl_dedupe_eq_firstSeen, List.nil_append]
  congr 1
  apply (List.filter_eq_self).mpr
  intro u _
  simp

/-! ## Lemmas: bin packing -/

theorem binWeight_append_single (b : List (Nat × α)) (it : Nat × α) :
    binWeight (b ++ [it]) = binWeight b + it.1 := by
  simp [binWeight]

/-- Placing one item preserves the multiset of packed items. -/
theorem placeItem_flatten_perm (B : Nat) (it : Nat × α)
    (bins : List (List (Nat × α))) :
    List.Perm (placeItem B it bins).flatten (it :: bins.flatten) := by
  induction bins with
  | nil => simp [placeItem]
  | cons bin rest ih =>
    by_cases h : binWeight bin + it.1 ≤ B
    · rw [placeItem, if_pos h, List.flatten_cons, List.flatten_cons,
        List.append_assoc, List.singleton_append]
      exact List.perm_middle
    · rw [placeItem, if_neg h, List.flatten_cons, List.flatten_cons]
      exact (ih.append_left bin).trans List.perm_middle

/-- The packing fold preserves the multiset of packed items. -/
theorem foldl_placeItem_flatten_perm (B : Nat) (items : List (Nat × α)) :
    ∀ bins : List (List (Nat × α)),
      List.Perm (items.foldl (fun bins item => placeItem B item bins) bins).flatten
        (items ++ bins.flatten) := by
  induction items with
  | nil => intro bins; simp
  | cons it items ih =>
    intro bins
    rw [List.foldl_cons, List.cons_append]
    exact (ih (placeItem B it bins)).trans
      (((placeItem_flatten_perm B it bins).append_left items).trans
        List.perm_middle)

/-- Stable descending insertion is a permutation of consing. -/
theorem sortedInsertDesc_perm (x : Nat × α) (l : List (Nat × α)) :
    List.Perm (sortedInsertDesc x l) (x :: l) := by
  induction l with
  | nil => simp [sortedInsertDesc]
  | cons y ys ih =>
    by_cases h : x.1 ≥ y.1
    · rw [sortedInsertDesc, if_pos h]
    · rw [sortedInsertDesc, if_neg h]
      exact (ih.cons y).trans (List.Perm.swap x y ys)

/-- The descending sort is a permutation of its input. -/
theorem sortBySizeDesc_perm (l : List (Nat × α)) :
    List.Perm (sortBySizeDesc l) l := by
  induction l with
  | nil => simp [sortBySizeDesc]
  | cons x xs ih =>
    exact (sortedInsertDesc_perm x (sortBySizeDesc xs)).trans (ih.cons x)

/-- The emitted bins hold exactly the input items, each exactly once. -/
theorem to_constant_volume_flatten_perm (items : List (Nat × α)) (B : Nat) :
    List.Perm (to_constant_volume items B).flatten items := by
  unfold to_constant_volume
  have h1 := foldl_placeItem_flatten_perm B (sortBySizeDesc items) []
  simp only [List.flatten_nil, List.append_nil] at h1
  exact h1.trans (sortBySizeDesc_perm items)

/-- A bin is within the volume bound unless it is a lone oversize item. -/
def BinOK (B : Nat) (bin : List (Nat × α)) : Prop :=
  binWeight bin ≤ B ∨ ∃ it, bin = [it] ∧ B < it.1

theorem placeItem_binOK {B : Nat} {it : Nat × α}
    {bins : List (List (Nat × α))} (h : ∀ bin ∈ bins, BinOK B bin) :
    ∀ bin ∈ placeItem B it bins, BinOK B bin := by
  induction bins with
  | nil =>
    intro bin hbin
    simp only [placeItem, List.mem_singleton] at hbin
    subst hbin
    by_cases hle : it.1 ≤ B
    · left
      simp [binWeight, hle]
    · right
      exact ⟨it, rfl, Nat.lt_of_not_le hle⟩
  | cons b rest ih =>
    intro bin hbin
    by_cases hfit : binWeight b + it.1 ≤ B
    · rw [placeItem, if_pos hfit] at hbin
      rcases List.mem_cons.mp hbin with h1 | h1
      · subst h1
        left
        rw [binWeight_append_single]
        exact hfit
      · exact h bin (List.mem_cons_of_mem _ h1)
    · rw [placeItem, if_neg hfit] at hbin
      rcases List.mem_cons.mp hbin with h1 | h1
      · rw [h1]
        exact h b (List.mem_cons_self _ _)
      · exact ih (fun bin hb => h bin (List.mem_cons_of_mem _ hb)) bin h1

theorem foldl_placeItem_binOK (B : Nat) (items : List (Nat × α)) :
    ∀ bins : List (List (Nat × α)), (∀ bin ∈ bins, BinOK B bin) →
      ∀ bin ∈ items.foldl (fun bins item => placeItem B item bins) bins,
        BinOK B bin := by
  induction items with
  | nil => intro bins h; exact h
  | cons it items ih =>
    intro bins h
    rw [List.foldl_cons]
    exact ih (placeItem B it bins) (placeItem_binOK h)

/-- Every bin of `to_constant_volume` is within the volume bound or a lone
oversize item. -/
theorem to_constant_volume_binOK (items : List (Nat × α)) (B : Nat) :
    ∀ bin ∈ to_constant_volume items B, BinOK B bin := by
  unfold to_constant_volume
  exact foldl_placeItem_binOK B (sortBySizeDesc items) [] (by simp)

/-! ## Lemmas: paging closed form -/

/-- Closed form of the paging loop when the pages at offsets
`s + j * LIMIT` are exactly full for `j < K` and short at `j = K`. -/
theorem pageLoop_spec (pages : Nat → List FileRef) :
    ∀ (K fuel s : Nat), K ≤ fuel →
      (∀ j < K, (pages (s + j * FILE_CATALOG_LIMIT)).length = FILE_CATALOG_LIMIT) →
      (pages (s + K * FILE_CATALOG_LIMIT)).length ≠ FILE_CATALOG_LIMIT →
      pageLoop pages fuel s (pages s).length =
        (((List.range K).map (fun j =>
            pages (s + (j + 1) * FILE_CATALOG_LIMIT))).flatten,
         (List.range K).map (fun j =>
            { start := s + (j + 1) * FILE_CATALOG_LIMIT, keysUuid := false })) := by
  intro K
  induction K with
  | zero =>
    intro fuel s _ _ hshort
    simp only [Nat.zero_mul, Nat.add_zero] at hshort
    cases fuel with
    | zero => simp [pageLoop]
    | succ f => simp [pageLoop, hshort]
  | succ K ih =>
    intro fuel s hK hfull hshort
    have h0 : (pages s).length = FILE_CATALOG_LIMIT := by
      have := hfull 0 (Nat.succ_pos K)
      simpa using this
    cases fuel with
    | zero => omega
    | succ f =>
      have hfull2 : ∀ j < K,
          (pages (s + FILE_CATALOG_LIMIT + j * FILE_CATALOG_LIMIT)).length =
            FILE_CATALOG_LIMIT := by
        intro j hj
        have h1 := hfull (j + 1) (by omega)
        have h2 : s + (j + 1) * FILE_CATALOG_LIMIT =
            s + FILE_CATALOG_LIMIT + j * FILE_CATALOG_LIMIT := by ring
        rw [h2] at h1
        exact h1
      have hshort2 :
          (pages (s + FILE_CATALOG_LIMIT + K * FILE_CATALOG_LIMIT)).length ≠
            FILE_CATALOG_LIMIT := by
        have h2 : s + (K + 1) * FILE_CATALOG_LIMIT =
            s + FILE_CATALOG_LIMIT + K * FILE_CATALOG_LIMIT := by ring
        rw [h2] at hshort
        exact hshort
      have hrest := ih f (s + FILE_CATALOG_LIMIT) (by omega) hfull2 hshort2
      simp only [pageLoop, h0, if_pos]
      rw [hrest]
      have hmapP : (List.range K).map (fun j =>
          pages (s + FILE_CATALOG_LIMIT + (j + 1) * FILE_CATALOG_LIMIT)) =
          (List.range K).map (fun j =>
            pages (s + (j + 1 + 1) * FILE_CATALOG_LIMIT)) := by
        apply List.map_congr_left
        intro j _
        congr 1
        ring
      have hmapR : (List.range K).map (fun j =>
          PageReq.mk (s + FILE_CATALOG_LIMIT + (j + 1) * FILE_CATALOG_LIMIT) false) =
          (List.range K).map (fun j =>
            PageReq.mk (s + (j + 1 + 1) * FILE_CATALOG_LIMIT) false) := by
        apply List.map_congr_left
        intro j _
        congr 1
        ring
      rw [hmapP, hmapR, List.range_succ_eq_map, List.map_cons, List.map_cons,
        List.flatten_cons, List.map_map, List.map_map]
      constructor

/-- Closed form of the whole file-discovery phase. -/
theorem catalogDiscover_spec (pages : Nat → List FileRef) (K fuel : Nat)
    (hK : K ≤ fuel)
    (hfull : ∀ j < K,
      (pages (j * FILE_CATALOG_LIMIT)).length = FILE_CATALOG_LIMIT)
    (hshort : (pages (K * FILE_CATALOG_LIMIT)).length ≠ FILE_CATALOG_LIMIT) :
    catalogDiscover pages fuel =
      (((List.range (K + 1)).map (fun j =>
          pages (j * FILE_CATALOG_LIMIT))).flatten,
       (List.range (K + 1)).map (fun j =>
          { start := j * FILE_CATALOG_LIMIT, keysUuid := j == 0 })) := by
  have hfull2 : ∀ j < K,
      (pages (0 + j * FILE_CATALOG_LIMIT)).length = FILE_CATALOG_LIMIT := by
    intro j hj
    simpa using hfull j hj
  have hshort2 :
      (pages (0 + K * FILE_CATALOG_LIMIT)).length ≠ FILE_CATALOG_LIMIT := by
    simpa using hshort
  have hrest := pageLoop_spec pages K fuel 0 hK hfull2 hshort2
  show (pages 0 ++ (pageLoop pages fuel 0 (pages 0).length).1,
      ({ start := 0, keysUuid := true } : PageReq) ::
        (pageLoop pages fuel 0 (pages 0).length).2) = _
  rw [hrest]
  have hmapP : (List.range K).map (fun j =>
      pages (0 + (j + 1) * FILE_CATALOG_LIMIT)) =
      (List.range K).map (fun j => pages ((j + 1) * FILE_CATALOG_LIMIT)) := by
    apply List.map_congr_left
    intro j _
    congr 1
    ring
  have hmapR : (List.range K).map (fun j =>
      PageReq.mk (0 + (j + 1) * FILE_CATALOG_LIMIT) false) =
      (List.range K).map (fun j =>
        PageReq.mk ((j + 1) * FILE_CATALOG_LIMIT) ((j + 1) == 0)) := by
    apply List.map_congr_left
    intro j _
    simp
  rw [hmapP, hmapR, List.range_succ_eq_map, List.map_cons, List.map_cons,
    List.flatten_cons, List.map_map, List.map_map]
  constructor

/-! ## Reduction lemmas for the worker bodies -/

theorem flatten_map_singleton {α β : Type} (f : α → β) (l : List α) :
    (l.map (fun x => [f x])).flatten = l.map f := by
  induction l with
  | nil => rfl
  | cons x xs ih => simp [ih]

/-- The Picker body on a non-empty catalog with a passing gate. -/
theorem picker_dwtr_emit (pages : Nat → List FileRef) (fuel : Nat)
    (getRecord : String → CatalogRecord) (sites : String → Nat)
    (max_file_count : Nat) (tr : TransferRequest)
    (hne : (catalogDiscover pages fuel).1 ≠ [])
    (hfind : (Picker.packingSpec pages fuel getRecord (sites tr.dest)).find?
      (fun spec => max_file_count < spec.length) = none) :
    Picker.do_work_transfer_request pages fuel getRecord sites
        max_file_count tr =
      { fetchedUuids := ((catalogDiscover pages fuel).1).map (fun f => f.uuid)
        quarantines := []
        bulkCreates :=
          (Picker.packingSpec pages fuel getRecord (sites tr.dest)).map
            (fun spec => Picker.create_bundle (Picker.mkBundle tr spec)) } := by
  simp only [Picker.do_work_transfer_request]
  rw [if_neg hne, hfind]

/-- The Picker body on a non-empty catalog with a failing gate. -/
theorem picker_dwtr_gate (pages : Nat → List FileRef) (fuel : Nat)
    (getRecord : String → CatalogRecord) (sites : String → Nat)
    (max_file_count : Nat) (tr : TransferRequest)
    (hne : (catalogDiscover pages fuel).1 ≠ [])
    (spec : List (Nat × CatalogRecord))
    (hfind : (Picker.packingSpec pages fuel getRecord (sites tr.dest)).find?
      (fun spec => max_file_count < spec.length) = some spec) :
    Picker.do_work_transfer_request pages fuel getRecord sites
        max_file_count tr =
      { fetchedUuids := ((catalogDiscover pages fuel).1).map (fun f => f.uuid)
        quarantines := ["Bundle packing list contains " ++
          toString spec.length ++ " files; MAX_FILE_COUNT is configured at " ++
          toString max_file_count]
        bulkCreates := [] } := by
  simp only [Picker.do_work_transfer_request]
  rw [if_neg hne, hfind]

/-- The Locator body on a non-empty catalog. -/
theorem locator_dwtr_emit (pages : Nat → List FileRef) (fuel : Nat)
    (getRecord : String → CatalogRecord) (getArchive : String → ArchiveRecord)
    (tr : TransferRequest)
    (hne : (catalogDiscover pages fuel).1 ≠ []) :
    Locator.do_work_transfer_request pages fuel getRecord getArchive tr =
      { fetchedUuids := ((catalogDiscover pages fuel).1).map (fun f => f.uuid)
        fetchedBundleUuids := Locator.get_unique_archives
          (Locator.catalogRecords pages fuel getRecord) tr.source
        quarantines := []
        bulkCreates := ((Locator.get_unique_archives
            (Locator.catalogRecords pages fuel getRecord) tr.source).map
              getArchive).map
          (fun br => Locator.create_bundle (Locator.mkBundle tr br)) } := by
  simp only [Locator.do_work_transfer_request]
  rw [if_neg hne]

/-- An empty catalog yields an empty packing specification. -/
theorem packingSpec_of_empty (pages : Nat → List FileRef) (fuel : Nat)
    (getRecord : String → CatalogRecord) (B : Nat)
    (hemp : (catalogDiscover pages fuel).1 = []) :
    Picker.packingSpec pages fuel getRecord B = [] := by
  unfold Picker.packingSpec Picker.catalogRecords
  rw [hemp]
  rfl

/-! ## Claim theorems -/

/-- C3: when the measured Rucio inbox size plus the bundle size strictly
exceeds `DEST_QUOTA`, the stager performs no filesystem mutation, does not
quarantine the bundle and does not patch its `status`; it sends exactly
one PATCH whose body holds exactly `claimed=false`, `update_timestamp`
and `work_priority_timestamp`, and the claim handler returns false. -/
theorem stager_over_quota_unclaims (env : RucioStager.Env) (now : String)
    (rucio_size : Nat) (bundle : RucioStager.StagerBundle)
    (moveResult : Except String Unit)
    (h : env.dest_quota < rucio_size + bundle.size) :
    (RucioStager.stage_bundle env now rucio_size bundle moveResult).1.fsOps = []
    ∧ (RucioStager.stage_bundle env now rucio_size bundle moveResult).1.patches =
        [(bundle.uuid,
          [("claimed", JVal.jbool false),
           ("update_timestamp", JVal.jstr now),
           ("work_priority_timestamp", JVal.jstr now)])]
    ∧ (∀ p ∈ (RucioStager.stage_bundle env now rucio_size bundle
          moveResult).1.patches,
        ∀ kv ∈ p.2, kv.1 ≠ "status" ∧ kv.1 ≠ "reason" ∧ kv.1 ≠ "bundle_path")
    ∧ (RucioStager.stage_bundle env now rucio_size bundle moveResult).2 =
        Except.ok false
    ∧ (RucioStager.do_work_claim env now rucio_size (some bundle)
        moveResult).2 = some false := by
  have hgt : rucio_size + bundle.size > env.dest_quota := h
  refine ⟨?_, ?_, ?_, ?_, ?_⟩
  · simp [RucioStager.stage_bundle, if_pos hgt]
  · simp [RucioStager.stage_bundle, if_pos hgt, RucioStager.unclaim_body]
  · intro p hp kv hkv
    simp only [RucioStager.stage_bundle, if_pos hgt,
      RucioStager.unclaim_body, List.mem_singleton] at hp
    subst hp
    simp only [List.mem_cons, List.not_mem_nil, or_false] at hkv
    rcases hkv with h1 | h1 | h1 <;> subst h1 <;>
      exact ⟨by simp, by simp, by simp⟩
  · simp [RucioStager.stage_bundle, if_pos hgt]
  · simp [RucioStager.do_work_claim, RucioStager.stage_bundle, if_pos hgt]

/-- C3 witness: a concrete over-quota input. -/
theorem stager_over_quota_unclaims_witness :
    ((RucioStager.Env.mk "rucio_stager" "i" "/out" "/in" 1000).dest_quota <
      800 + (RucioStager.StagerBundle.mk "b1" 300 "/out/b.zip").size)
    ∧ (RucioStager.stage_bundle (RucioStager.Env.mk "rucio_stager" "i" "/out" "/in" 1000)
        "t0" 800 (RucioStager.StagerBundle.mk "b1" 300 "/out/b.zip")
        (Except.ok ())).2 = Except.ok false := by
  refine ⟨by decide, ?_⟩
  exact (stager_over_quota_unclaims
    (RucioStager.Env.mk "rucio_stager" "i" "/out" "/in" 1000) "t0" 800
    (RucioStager.StagerBundle.mk "b1" 300 "/out/b.zip") (Except.ok ())
    (by decide)).2.2.2.1

/-- C6: when the quota test passes, the stager moves the bundle file from
the bundler outbox to the Rucio inbox (both under the bundle path's
basename) and issues exactly one PATCH setting `bundle_path` to the
destination, `claimed=false`, `status="staged"`, `reason=""` and a
refreshed `update_timestamp`; if the move raises, the claim handler
quarantines the bundle and re-raises. -/
theorem stager_in_quota_moves_and_patches (env : RucioStager.Env)
    (now : String) (rucio_size : Nat) (bundle : RucioStager.StagerBundle)
    (h : rucio_size + bundle.size ≤ env.dest_quota) :
    RucioStager.stage_bundle env now rucio_size bundle (Except.ok ()) =
      ({ fsOps := [RucioStager.FsOp.move
            (pathJoin env.bundler_outbox_path (basename bundle.bundle_path))
            (pathJoin env.rucio_inbox_path (basename bundle.bundle_path))]
         patches := [(bundle.uuid,
           [("bundle_path", JVal.jstr
              (pathJoin env.rucio_inbox_path (basename bundle.bundle_path))),
            ("claimed", JVal.jbool false),
            ("status", JVal.jstr "staged"),
            ("reason", JVal.jstr ""),
            ("update_timestamp", JVal.jstr now)])] }, Except.ok true)
    ∧ ∀ e : String,
        (RucioStager.do_work_claim env now rucio_size (some bundle)
          (Except.error e)).2 = none
        ∧ (RucioStager.do_work_claim env now rucio_size (some bundle)
            (Except.error e)).1.patches =
          [(bundle.uuid, quarantineBody env.name env.instance_uuid now e)] := by
  have hngt : ¬ rucio_size + bundle.size > env.dest_quota := Nat.not_lt.mpr h
  refine ⟨?_, ?_⟩
  · simp [RucioStager.stage_bundle, if_neg hngt]
  · intro e
    constructor <;>
      simp [RucioStager.do_work_claim, RucioStager.stage_bundle, if_neg hngt,
        RucioStager.quarantine_bundle]

/-- C6 witness: a concrete in-quota input. -/
theorem stager_in_quota_moves_and_patches_witness :
    (800 + (RucioStager.StagerBundle.mk "b1" 200 "/out/b.zip").size ≤
      (RucioStager.Env.mk "rucio_stager" "i" "/out" "/in" 1000).dest_quota)
    ∧ (RucioStager.stage_bundle
        (RucioStager.Env.mk "rucio_stager" "i" "/out" "/in" 1000) "t0" 800
        (RucioStager.StagerBundle.mk "b1" 200 "/out/b.zip") (Except.ok ())).2 =
      Except.ok true := by
  refine ⟨by decide, ?_⟩
  have h := (stager_in_quota_moves_and_patches
    (RucioStager.Env.mk "rucio_stager" "i" "/out" "/in" 1000) "t0" 800
    (RucioStager.StagerBundle.mk "b1" 200 "/out/b.zip") (by decide)).1
  rw [h]

/-- C9: the stager's claim handler returns false whether a bundle was
staged, unclaimed for quota, or not available at all, so a single call
never drains a second bundle; the exception path quarantines the bundle
and re-raises instead of returning. -/
theorem stager_claim_handler_contract (env : RucioStager.Env) (now : String)
    (rucio_size : Nat) (popped : Option RucioStager.StagerBundle)
    (moveResult : Except String Unit) :
    ((RucioStager.do_work_claim env now rucio_size popped moveResult).2 =
        some false
      ∨ (RucioStager.do_work_claim env now rucio_size popped moveResult).2 =
        none)
    ∧ (RucioStager.do_work_claim env now rucio_size popped moveResult).2 ≠
        some true
    ∧ (popped = none →
        (RucioStager.do_work_claim env now rucio_size popped moveResult).2 =
          some false)
    ∧ ∀ bundle, popped = some bundle →
        (∀ b, (RucioStager.stage_bundle env now rucio_size bundle
            moveResult).2 = Except.ok b →
          (RucioStager.do_work_claim env now rucio_size popped moveResult).2 =
            some false)
        ∧ ∀ e, (RucioStager.stage_bundle env now rucio_size bundle
            moveResult).2 = Except.error e →
          (RucioStager.do_work_claim env now rucio_size popped
              moveResult).2 = none
          ∧ (RucioStager.do_work_claim env now rucio_size popped
              moveResult).1.patches =
            (RucioStager.stage_bundle env now rucio_size bundle
              moveResult).1.patches ++
              [(bundle.uuid, quarantineBody env.name env.instance_uuid now e)] := by
  cases popped with
  | none => simp [RucioStager.do_work_claim]
  | some bundle =>
    cases hst : RucioStager.stage_bundle env now rucio_size bundle moveResult with
    | mk eff r =>
      cases r with
      | ok b =>
        refine ⟨Or.inl ?_, ?_, ?_, ?_⟩
        · simp [RucioStager.do_work_claim, hst]
        · simp [RucioStager.do_work_claim, hst]
        · intro hcon; exact absurd hcon (by simp)
        · intro bundle2 hb2
          have hb2e : bundle2 = bundle := by
            exact (Option.some.inj hb2).symm
          subst hb2e
          refine ⟨?_, ?_⟩
          · intro b2 _
            simp [RucioStager.do_work_claim, hst]
          · intro e he
            rw [hst] at he
            exact absurd he (by simp)
      | error e =>
        refine ⟨Or.inr ?_, ?_, ?_, ?_⟩
        · simp [RucioStager.do_work_claim, hst]
        · simp [RucioStager.do_work_claim, hst]
        · intro hcon; exact absurd hcon (by simp)
        · intro bundle2 hb2
          have hb2e : bundle2 = bundle := by
            exact (Option.some.inj hb2).symm
          subst hb2e
          refine ⟨?_, ?_⟩
          · intro b2 hb
            rw [hst] at hb
            exact absurd hb (by simp)
          · intro e2 he2
            rw [hst] at he2
            have he2e : e = e2 := Except.error.inj he2
            subst he2e
            constructor
            · simp [RucioStager.do_work_claim, hst]
            · simp [RucioStager.do_work_claim, hst,
                RucioStager.quarantine_bundle]

/-- C9 witness: the handler applied to an idle pop. -/
theorem stager_claim_handler_contract_witness :
    (RucioStager.do_work_claim
      (RucioStager.Env.mk "rucio_stager" "i" "/out" "/in" 1000) "t0" 0 none
      (Except.ok ())).2 = some false := by
  exact (stager_claim_handler_contract
    (RucioStager.Env.mk "rucio_stager" "i" "/out" "/in" 1000) "t0" 0 none
    (Except.ok ())).2.2.1 rfl

/-- C8: every quarantine primitive (Picker, Locator, RucioStager) issues a
PATCH setting `status="quarantined"`, `reason="BY:<name>-<instance_uuid>
REASON:<cause>"` (which matches `BY:` then a non-space claimant then
` REASON:` then a non-empty cause) and `work_priority_timestamp` to the
current time; a failing PATCH is swallowed, so the primitive always
returns normally. -/
theorem quarantine_primitive_contract (name inst now entity cause : String)
    (patchResult : Except String Unit)
    (hname : ' ' ∉ name.data) (hinst : ' ' ∉ inst.data) (hcause : cause ≠ "") :
    (Picker.quarantine_transfer_request name inst now entity cause
        patchResult).2 = Except.ok ()
    ∧ (Picker.quarantine_transfer_request name inst now entity cause
        patchResult).1 = [(entity, quarantineBody name inst now cause)]
    ∧ (Locator.quarantine_transfer_request name inst now entity cause
        patchResult).2 = Except.ok ()
    ∧ (Locator.quarantine_transfer_request name inst now entity cause
        patchResult).1 = [(entity, quarantineBody name inst now cause)]
    ∧ (RucioStager.quarantine_bundle name inst now entity cause
        patchResult).2 = Except.ok ()
    ∧ (RucioStager.quarantine_bundle name inst now entity cause
        patchResult).1 = [(entity, quarantineBody name inst now cause)]
    ∧ ∃ claimant rest : String,
        quarantineBody name inst now cause =
          [("status", JVal.jstr "quarantined"),
           ("reason", JVal.jstr ("BY:" ++ claimant ++ " REASON:" ++ rest)),
           ("work_priority_timestamp", JVal.jstr now)]
        ∧ claimant ≠ "" ∧ ' ' ∉ claimant.data ∧ rest ≠ "" := by
  refine ⟨?_, ?_, ?_, ?_, ?_, ?_, name ++ "-" ++ inst, cause, rfl, ?_, ?_, hcause⟩
  · cases patchResult <;> rfl
  · cases patchResult <;> rfl
  · cases patchResult <;> rfl
  · cases patchResult <;> rfl
  · cases patchResult <;> rfl
  · cases patchResult <;> rfl
  · intro hempty
    have hdash : '-' ∈ (name ++ "-" ++ inst).data := by
      rw [String.data_append, String.data_append]
      exact List.mem_append.mpr (Or.inl (List.mem_append.mpr (Or.inr (by decide))))
    rw [hempty] at hdash
    exact absurd hdash (by decide)
  · rw [String.data_append, String.data_append]
    intro hsp
    rcases List.mem_append.mp hsp with h1 | h1
    · rcases List.mem_append.mp h1 with h2 | h2
      · exact hname h2
      · exact absurd h2 (by decide)
    · exact hinst h1

/-- C8 witness: the three primitives at a concrete quarantine, with the
PATCH itself failing. -/
theorem quarantine_primitive_contract_witness :
    (' ' ∉ ("picker" : String).data ∧ ' ' ∉ ("f00d" : String).data ∧
      ("boom" : String) ≠ "")
    ∧ (Picker.quarantine_transfer_request "picker" "f00d" "t0" "tr1" "boom"
        (Except.error "down")).2 = Except.ok () := by
  refine ⟨⟨by decide, by decide, by decide⟩, ?_⟩
  exact (quarantine_primitive_contract "picker" "f00d" "t0" "tr1" "boom"
    (Except.error "down") (by decide) (by decide) (by decide)).1

/-- C7: when the paged catalog query of a Picker or Locator work cycle
returns zero files in total, the claimed TransferRequest is quarantined
with exactly the cause "File Catalog returned zero files for the
TransferRequest", no per-uuid record fetches are made and zero bundles
are created. -/
theorem zero_files_quarantine (pages pagesL : Nat → List FileRef)
    (fuel fuelL : Nat) (getRecord getRecordL : String → CatalogRecord)
    (getArchive : String → ArchiveRecord) (sites : String → Nat)
    (max_file_count : Nat) (tr trL : TransferRequest)
    (hp : (catalogDiscover pages fuel).1 = [])
    (hl : (catalogDiscover pagesL fuelL).1 = []) :
    Picker.do_work_transfer_request pages fuel getRecord sites
        max_file_count tr =
      { fetchedUuids := []
        quarantines :=
          ["File Catalog returned zero files for the TransferRequest"]
        bulkCreates := [] }
    ∧ Locator.do_work_transfer_request pagesL fuelL getRecordL getArchive
        trL =
      { fetchedUuids := []
        fetchedBundleUuids := []
        quarantines :=
          ["File Catalog returned zero files for the TransferRequest"]
        bulkCreates := [] } := by
  constructor
  · simp [Picker.do_work_transfer_request, hp]
  · simp [Locator.do_work_transfer_request, hl]

/-- C7 witness: an always-empty catalog. -/
theorem zero_files_quarantine_witness :
    ((catalogDiscover (fun _ => []) 0).1 = [])
    ∧ (Picker.do_work_transfer_request (fun _ => []) 0
        (fun u => CatalogRecord.mk "c" 0 "l" "m" u []) (fun _ => 1000) 25000
        (TransferRequest.mk "t" "s" "d" "/p")).quarantines =
      ["File Catalog returned zero files for the TransferRequest"] := by
  refine ⟨by decide, ?_⟩
  have h := (zero_files_quarantine (fun _ => []) (fun _ => []) 0 0
    (fun u => CatalogRecord.mk "c" 0 "l" "m" u [])
    (fun u => CatalogRecord.mk "c" 0 "l" "m" u [])
    (fun u => ArchiveRecord.mk "c" 0 "l" "m" u "/bp" "ck") (fun _ => 1000)
    25000 (TransferRequest.mk "t" "s" "d" "/p")
    (TransferRequest.mk "t" "s" "d" "/p") (by decide) (by decide)).1
  rw [h]

/-- C10: every `bulk_create` POST issued by the Picker or the Locator
carries exactly one bundle in its `bundles` list; a cycle producing `n`
bundles issues `n` singleton calls, one per bin (Picker) or per archive
record (Locator), in order. -/
theorem bulk_create_singleton (pages pagesL : Nat → List FileRef)
    (fuel fuelL : Nat) (getRecord getRecordL : String → CatalogRecord)
    (getArchive : String → ArchiveRecord) (sites : String → Nat)
    (max_file_count : Nat) (tr trL : TransferRequest) :
    (∀ call ∈ (Picker.do_work_transfer_request pages fuel getRecord sites
        max_file_count tr).bulkCreates, call.length = 1)
    ∧ ((Picker.do_work_transfer_request pages fuel getRecord sites
          max_file_count tr).quarantines = [] →
        (Picker.do_work_transfer_request pages fuel getRecord sites
          max_file_count tr).bulkCreates =
        (Picker.packingSpec pages fuel getRecord (sites tr.dest)).map
          (fun spec => [Picker.mkBundle tr spec]))
    ∧ (∀ call ∈ (Locator.do_work_transfer_request pagesL fuelL getRecordL
        getArchive trL).bulkCreates, call.length = 1)
    ∧ ((Locator.do_work_transfer_request pagesL fuelL getRecordL getArchive
          trL).quarantines = [] →
        (Locator.do_work_transfer_request pagesL fuelL getRecordL getArchive
          trL).bulkCreates =
        ((Locator.get_unique_archives
            (Locator.catalogRecords pagesL fuelL getRecordL) trL.source).map
              getArchive).map
          (fun br => [Locator.mkBundle trL br])) := by
  refine ⟨?_, ?_, ?_, ?_⟩
  · intro call hcall
    by_cases hemp : (catalogDiscover pages fuel).1 = []
    · simp [Picker.do_work_transfer_request, hemp] at hcall
    · cases hfind : (Picker.packingSpec pages fuel getRecord
          (sites tr.dest)).find? (fun spec => max_file_count < spec.length) with
      | none =>
        rw [picker_dwtr_emit pages fuel getRecord sites max_file_count tr
          hemp hfind] at hcall
        simp only [List.mem_map] at hcall
        rcases hcall with ⟨spec, _, hc⟩
        rw [← hc]
        rfl
      | some spec =>
        rw [picker_dwtr_gate pages fuel getRecord sites max_file_count tr
          hemp spec hfind] at hcall
        simp at hcall
  · intro hq
    by_cases hemp : (catalogDiscover pages fuel).1 = []
    · exfalso
      simp [Picker.do_work_transfer_request, hemp] at hq
    · cases hfind : (Picker.packingSpec pages fuel getRecord
          (sites tr.dest)).find? (fun spec => max_file_count < spec.length) with
      | none =>
        rw [picker_dwtr_emit pages fuel getRecord sites max_file_count tr
          hemp hfind]
        rfl
      | some spec =>
        exfalso
        rw [picker_dwtr_gate pages fuel getRecord sites max_file_count tr
          hemp spec hfind] at hq
        simp at hq
  · intro call hcall
    by_cases hemp : (catalogDiscover pagesL fuelL).1 = []
    · simp [Locator.do_work_transfer_request, hemp] at hcall
    · rw [locator_dwtr_emit pagesL fuelL getRecordL getArchive trL hemp]
        at hcall
      simp only [List.mem_map] at hcall
      rcases hcall with ⟨br, _, hc⟩
      rw [← hc]
      rfl
  · intro hq
    by_cases hemp : (catalogDiscover pagesL fuelL).1 = []
    · exfalso
      simp [Locator.do_work_transfer_request, hemp] at hq
    · rw [locator_dwtr_emit pagesL fuelL getRecordL getArchive trL hemp]
      rfl

/-- C10 witness: concrete one-file Picker and Locator cycles. -/
theorem bulk_create_singleton_witness :
    ∀ call ∈ (Picker.do_work_transfer_request
      (fun s => if s = 0 then [FileRef.mk "u1"] else []) 1
      (fun u => CatalogRecord.mk "c" 5 "l" "m" u []) (fun _ => 1000) 25000
      (TransferRequest.mk "t" "s" "d" "/p")).bulkCreates, call.length = 1 := by
  exact (bulk_create_singleton
    (fun s => if s = 0 then [FileRef.mk "u1"] else [])
    (fun s => if s = 0 then [FileRef.mk "u1"] else []) 1 1
    (fun u => CatalogRecord.mk "c" 5 "l" "m" u [])
    (fun u => CatalogRecord.mk "c" 5 "l" "m" u [])
    (fun u => ArchiveRecord.mk "c" 5 "l" "m" u "/bp" "ck") (fun _ => 1000)
    25000 (TransferRequest.mk "t" "s" "d" "/p")
    (TransferRequest.mk "t" "s" "d" "/p")).1

/-- C4: the Locator's bundle-uuid derivation equals the spec's derivation
(participating locations in order, uuid extraction, distinct uuids in
first-seen order), the result has no duplicates, the derivation is
unchanged when the catalog records (and so every location entry) are
repeated, and the number of bundles emitted with `status="located"`
equals the length of the derived list. -/
theorem locator_unique_archives_contract (pages : Nat → List FileRef)
    (fuel : Nat) (getRecord : String → CatalogRecord)
    (getArchive : String → ArchiveRecord) (tr : TransferRequest)
    (hne : (catalogDiscover pages fuel).1 ≠ []) :
    Locator.get_unique_archives (Locator.catalogRecords pages fuel getRecord)
        tr.source =
      locatorUuidsSpec (Locator.catalogRecords pages fuel getRecord) tr.source
    ∧ (Locator.get_unique_archives
        (Locator.catalogRecords pages fuel getRecord) tr.source).Nodup
    ∧ Locator.get_unique_archives
        (Locator.catalogRecords pages fuel getRecord ++
          Locator.catalogRecords pages fuel getRecord) tr.source =
      Locator.get_unique_archives (Locator.catalogRecords pages fuel getRecord)
        tr.source
    ∧ ((Locator.do_work_transfer_request pages fuel getRecord getArchive
        tr).bulkCreates).flatten.length =
      (Locator.get_unique_archives (Locator.catalogRecords pages fuel
        getRecord) tr.source).length
    ∧ ∀ b ∈ ((Locator.do_work_transfer_request pages fuel getRecord
        getArchive tr).bulkCreates).flatten, b.status = "located" := by
  refine ⟨get_unique_archives_eq_spec _ _, ?_, ?_, ?_, ?_⟩
  · rw [get_unique_archives_eq_spec]
    exact nodup_firstSeen _
  · rw [get_unique_archives_eq_spec, get_unique_archives_eq_spec]
    unfold locatorUuidsSpec
    have hraw : rawArchiveUuids
        (Locator.catalogRecords pages fuel getRecord ++
          Locator.catalogRecords pages fuel getRecord) tr.source =
        rawArchiveUuids (Locator.catalogRecords pages fuel getRecord)
          tr.source ++
        rawArchiveUuids (Locator.catalogRecords pages fuel getRecord)
          tr.source := by
      unfold rawArchiveUuids
      rw [List.map_append, List.flatten_append, List.map_append]
    rw [hraw]
    exact firstSeen_append_of_subset _ _ (fun u hu => hu)
  · rw [locator_dwtr_emit pages fuel getRecord getArchive tr hne]
    simp only [Locator.create_bundle, flatten_map_singleton, List.length_map]
  · rw [locator_dwtr_emit pages fuel getRecord getArchive tr hne]
    intro b hb
    simp only [Locator.create_bundle, flatten_map_singleton,
      List.mem_map] at hb
    rcases hb with ⟨br, _, hbr⟩
    rw [← hbr]
    rfl

/-- C4 witness: a concrete catalog with one archived record. -/
theorem locator_unique_archives_contract_witness :
    ((catalogDiscover (fun s => if s = 0 then [FileRef.mk "u1"] else []) 1).1
      ≠ [])
    ∧ (Locator.get_unique_archives
        (Locator.catalogRecords
          (fun s => if s = 0 then [FileRef.mk "u1"] else []) 1
          (fun u => CatalogRecord.mk "c" 5 "l" "m" u
            [Location.mk "s" "/a/b/cafe.zip:inner" (some (JVal.jbool true))]))
        (TransferRequest.mk "t" "s" "d" "/p").source).Nodup := by
  refine ⟨by decide, ?_⟩
  exact (locator_unique_archives_contract
    (fun s => if s = 0 then [FileRef.mk "u1"] else []) 1
    (fun u => CatalogRecord.mk "c" 5 "l" "m" u
      [Location.mk "s" "/a/b/cafe.zip:inner" (some (JVal.jbool true))])
    (fun u => ArchiveRecord.mk "c" 5 "l" "m" u "/bp" "ck")
    (TransferRequest.mk "t" "s" "d" "/p") (by decide)).2.1

/-- C5: in the file-discovery phase, a further catalog page is requested
iff the page just returned holds exactly `FILE_CATALOG_LIMIT = 9000`
entries; the first request carries `keys=uuid` and every later request
does not; each later request's `start` is the previous `start` plus the
previous page length; and the accumulated file list is the concatenation
of the returned pages in order.  (`K` counts the exactly-full pages; the
hypotheses say the run terminates by a short page within `fuel`.) -/
theorem catalog_paging_contract (pages : Nat → List FileRef) (fuel K : Nat)
    (hK : K ≤ fuel)
    (hfull : ∀ j < K,
      (pages (j * FILE_CATALOG_LIMIT)).length = FILE_CATALOG_LIMIT)
    (hshort : (pages (K * FILE_CATALOG_LIMIT)).length ≠ FILE_CATALOG_LIMIT) :
    ((catalogDiscover pages fuel).2).length = K + 1
    ∧ (∀ i, ∀ h : i < ((catalogDiscover pages fuel).2).length,
        ((catalogDiscover pages fuel).2).get ⟨i, h⟩ =
          { start := i * FILE_CATALOG_LIMIT, keysUuid := i == 0 })
    ∧ (catalogDiscover pages fuel).1 =
        (((catalogDiscover pages fuel).2).map (fun r => pages r.start)).flatten
    ∧ (∀ i, ∀ hi : i < ((catalogDiscover pages fuel).2).length,
        ∀ hj : i + 1 < ((catalogDiscover pages fuel).2).length,
        (((catalogDiscover pages fuel).2).get ⟨i + 1, hj⟩).start =
          (((catalogDiscover pages fuel).2).get ⟨i, hi⟩).start +
            (pages ((((catalogDiscover pages fuel).2).get ⟨i, hi⟩).start)).length)
    ∧ (∀ i, ∀ hi : i < ((catalogDiscover pages fuel).2).length,
        (i + 1 < ((catalogDiscover pages fuel).2).length ↔
          (pages ((((catalogDiscover pages fuel).2).get ⟨i, hi⟩).start)).length =
            FILE_CATALOG_LIMIT)) := by
  have hcd := catalogDiscover_spec pages K fuel hK hfull hshort
  rw [hcd]
  refine ⟨by simp, ?_, ?_, ?_, ?_⟩
  · intro i h
    simp only [List.get_eq_getElem, List.getElem_map, List.getElem_range]
  · rw [List.map_map]
    rfl
  · intro i hi hj
    simp only [List.length_map, List.length_range] at hi hj
    simp only [List.get_eq_getElem, List.getElem_map, List.getElem_range]
    show (i + 1) * FILE_CATALOG_LIMIT =
      i * FILE_CATALOG_LIMIT + (pages (i * FILE_CATALOG_LIMIT)).length
    have hilt : i < K := by omega
    rw [hfull i hilt]
    ring
  · intro i hi
    simp only [List.length_map, List.length_range] at hi ⊢
    simp only [List.get_eq_getElem, List.getElem_map, List.getElem_range]
    show i + 1 < K + 1 ↔
      (pages (i * FILE_CATALOG_LIMIT)).length = FILE_CATALOG_LIMIT
    constructor
    · intro hlt
      exact hfull i (by omega)
    · intro hlen
      by_contra hge
      have hik : i = K := by omega
      rw [hik] at hlen
      exact hshort hlen

/-- C5 witness: one exactly-full page followed by a short page. -/
theorem catalog_paging_contract_witness :
    (1 ≤ 1
      ∧ (∀ j < 1, ((fun s => if s = 0 then
          List.replicate FILE_CATALOG_LIMIT (FileRef.mk "u") else
          ([] : List FileRef)) (j * FILE_CATALOG_LIMIT)).length =
            FILE_CATALOG_LIMIT)
      ∧ ((fun s => if s = 0 then
          List.replicate FILE_CATALOG_LIMIT (FileRef.mk "u") else
          ([] : List FileRef)) (1 * FILE_CATALOG_LIMIT)).length ≠
            FILE_CATALOG_LIMIT)
    ∧ ((catalogDiscover (fun s => if s = 0 then
        List.replicate FILE_CATALOG_LIMIT (FileRef.mk "u") else
        ([] : List FileRef)) 1).2).length = 1 + 1 := by
  have h1 : ∀ j < 1, ((fun s => if s = 0 then
      List.replicate FILE_CATALOG_LIMIT (FileRef.mk "u") else
      ([] : List FileRef)) (j * FILE_CATALOG_LIMIT)).length =
        FILE_CATALOG_LIMIT := by
    intro j hj
    have hj0 : j = 0 := by omega
    subst hj0
    simp
  have h2 : ((fun s => if s = 0 then
      List.replicate FILE_CATALOG_LIMIT (FileRef.mk "u") else
      ([] : List FileRef)) (1 * FILE_CATALOG_LIMIT)).length ≠
        FILE_CATALOG_LIMIT := by
    simp [FILE_CATALOG_LIMIT]
  exact ⟨⟨le_refl 1, h1, h2⟩,
    (catalog_paging_contract (fun s => if s = 0 then
      List.replicate FILE_CATALOG_LIMIT (FileRef.mk "u") else
      ([] : List FileRef)) 1 1 (le_refl 1) h1 h2).1⟩

/-- C2: when the bin packing produces a bin holding more than
`MAX_FILE_COUNT` files, the Picker issues zero `bulk_create` calls and
quarantines the TransferRequest exactly once, with a cause naming the
observed file count of the offending bin and the configured limit. -/
theorem picker_cardinality_gate (pages : Nat → List FileRef) (fuel : Nat)
    (getRecord : String → CatalogRecord) (sites : String → Nat)
    (max_file_count : Nat) (tr : TransferRequest)
    (h : ∃ spec ∈ Picker.packingSpec pages fuel getRecord (sites tr.dest),
      max_file_count < spec.length) :
    (Picker.do_work_transfer_request pages fuel getRecord sites
      max_file_count tr).bulkCreates = []
    ∧ ∃ spec ∈ Picker.packingSpec pages fuel getRecord (sites tr.dest),
        max_file_count < spec.length
        ∧ (Picker.do_work_transfer_request pages fuel getRecord sites
            max_file_count tr).quarantines =
          ["Bundle packing list contains " ++ toString spec.length ++
           " files; MAX_FILE_COUNT is configured at " ++
           toString max_file_count] := by
  have hne : (catalogDiscover pages fuel).1 ≠ [] := by
    intro hemp
    rcases h with ⟨spec, hmem, _⟩
    rw [packingSpec_of_empty pages fuel getRecord (sites tr.dest) hemp] at hmem
    exact absurd hmem (List.not_mem_nil spec)
  cases hfind : (Picker.packingSpec pages fuel getRecord
      (sites tr.dest)).find? (fun spec => max_file_count < spec.length) with
  | none =>
    exfalso
    rcases h with ⟨spec, hmem, hlen⟩
    have := List.find?_eq_none.mp hfind spec hmem
    simp only [decide_eq_true_eq] at this
    exact this hlen
  | some spec =>
    have hred := picker_dwtr_gate pages fuel getRecord sites max_file_count
      tr hne spec hfind
    have hp : max_file_count < spec.length := by
      have := List.find?_some hfind
      simpa using this
    refine ⟨by rw [hred], spec, List.mem_of_find?_eq_some hfind, hp, ?_⟩
    rw [hred]

/-- C2 witness: two one-byte files against `MAX_FILE_COUNT = 1`. -/
theorem picker_cardinality_gate_witness :
    (∃ spec ∈ Picker.packingSpec
        (fun s => if s = 0 then [FileRef.mk "a", FileRef.mk "b"] else []) 1
        (fun u => CatalogRecord.mk "c" 1 "l" "m" u []) 10, 1 < spec.length)
    ∧ (Picker.do_work_transfer_request
        (fun s => if s = 0 then [FileRef.mk "a", FileRef.mk "b"] else []) 1
        (fun u => CatalogRecord.mk "c" 1 "l" "m" u [])
        (fun _ => 10) 1 (TransferRequest.mk "t" "s" "d" "/p")).bulkCreates =
      [] := by
  have h : ∃ spec ∈ Picker.packingSpec
      (fun s => if s = 0 then [FileRef.mk "a", FileRef.mk "b"] else []) 1
      (fun u => CatalogRecord.mk "c" 1 "l" "m" u []) 10, 1 < spec.length := by
    decide
  exact ⟨h, (picker_cardinality_gate
    (fun s => if s = 0 then [FileRef.mk "a", FileRef.mk "b"] else []) 1
    (fun u => CatalogRecord.mk "c" 1 "l" "m" u []) (fun _ => 10) 1
    (TransferRequest.mk "t" "s" "d" "/p") h).1⟩

/-- C1: on a non-empty record set whose cardinality gate passes, the
bundles the Picker emits partition the fetched records: the five-key
projections collected over all emitted bundles are a permutation of the
projections of the records (each record in exactly one bundle, none
twice), and each bundle's summed `file_size` is at most the destination's
`bundle_size` unless the bundle is a single record whose own size exceeds
it. -/
theorem picker_bundles_partition_records (pages : Nat → List FileRef)
    (fuel : Nat) (getRecord : String → CatalogRecord) (sites : String → Nat)
    (max_file_count : Nat) (tr : TransferRequest)
    (hne : (catalogDiscover pages fuel).1 ≠ [])
    (hgate : ∀ spec ∈ Picker.packingSpec pages fuel getRecord (sites tr.dest),
      spec.length ≤ max_file_count) :
    List.Perm
      ((((Picker.do_work_transfer_request pages fuel getRecord sites
          max_file_count tr).bulkCreates).flatten.map
            Picker.Bundle.files).flatten)
      ((Picker.catalogRecords pages fuel getRecord).map as_bundle_record)
    ∧ ∀ b ∈ ((Picker.do_work_transfer_request pages fuel getRecord sites
        max_file_count tr).bulkCreates).flatten,
        (b.files.map BundleRecord.file_size).sum ≤ sites tr.dest
        ∨ ∃ f, b.files = [f] ∧ sites tr.dest < f.file_size := by
  have hfind : (Picker.packingSpec pages fuel getRecord
      (sites tr.dest)).find? (fun spec => max_file_count < spec.length) =
      none := by
    apply List.find?_eq_none.mpr
    intro spec hmem
    simp only [decide_eq_true_eq]
    exact Nat.not_lt.mpr (hgate spec hmem)
  have hred := picker_dwtr_emit pages fuel getRecord sites max_file_count tr
    hne hfind
  rw [hred]
  simp only [Picker.create_bundle, flatten_map_singleton]
  have hspec_eq : Picker.packingSpec pages fuel getRecord (sites tr.dest) =
      to_constant_volume ((Picker.catalogRecords pages fuel getRecord).map
        (fun r => (r.file_size, r))) (sites tr.dest) := rfl
  have hitems : ∀ x ∈ (Picker.catalogRecords pages fuel getRecord).map
      (fun r => (r.file_size, r)), x.1 = x.2.file_size := by
    intro x hx
    rcases List.mem_map.mp hx with ⟨r, _, hr⟩
    rw [← hr]
  have hperm := to_constant_volume_flatten_perm
    ((Picker.catalogRecords pages fuel getRecord).map
      (fun r => (r.file_size, r))) (sites tr.dest)
  constructor
  · rw [List.map_map]
    have hfiles : (Picker.packingSpec pages fuel getRecord
        (sites tr.dest)).map (Picker.Bundle.files ∘ fun spec =>
          Picker.mkBundle tr spec) =
        (Picker.packingSpec pages fuel getRecord (sites tr.dest)).map
          (List.map (fun x => as_bundle_record x.2)) := rfl
    rw [hfiles, ← List.map_flatten, hspec_eq]
    have h1 := hperm.map (fun x => as_bundle_record x.2)
    rw [List.map_map] at h1
    exact h1
  · intro b hb
    rcases List.mem_map.mp hb with ⟨spec, hmem, heq⟩
    have hok := to_constant_volume_binOK
      ((Picker.catalogRecords pages fuel getRecord).map
        (fun r => (r.file_size, r))) (sites tr.dest) spec
      (by rw [← hspec_eq]; exact hmem)
    have hsub : ∀ x ∈ spec, x.1 = x.2.file_size := by
      intro x hx
      have hxf : x ∈ (to_constant_volume
          ((Picker.catalogRecords pages fuel getRecord).map
            (fun r => (r.file_size, r))) (sites tr.dest)).flatten :=
        List.mem_flatten.mpr ⟨spec, by rw [← hspec_eq]; exact hmem, hx⟩
      exact hitems x (hperm.mem_iff.mp hxf)
    have hbfiles : b.files = spec.map (fun x => as_bundle_record x.2) := by
      rw [← heq]
      rfl
    rcases hok with hle | ⟨it, hbin, hover⟩
    · left
      rw [hbfiles, List.map_map]
      have hmape : spec.map (BundleRecord.file_size ∘ fun x =>
          as_bundle_record x.2) = spec.map Prod.fst := by
        apply List.map_congr_left
        intro x hx
        exact (hsub x hx).symm
      rw [hmape]
      exact hle
    · right
      refine ⟨as_bundle_record it.2, ?_, ?_⟩
      · rw [hbfiles, hbin]
        rfl
      · show sites tr.dest < it.2.file_size
        rw [← hsub it (by rw [hbin]; exact List.mem_singleton_self it)]
        exact hover

/-- C1 witness: three records of sizes 300, 400, 500 against
`bundle_size = 1000` (the spec's scenario S1). -/
theorem picker_bundles_partition_records_witness :
    ((catalogDiscover (fun s => if s = 0 then
        [FileRef.mk "a", FileRef.mk "b", FileRef.mk "c"] else []) 1).1 ≠ []
      ∧ (∀ spec ∈ Picker.packingSpec (fun s => if s = 0 then
          [FileRef.mk "a", FileRef.mk "b", FileRef.mk "c"] else []) 1
          (fun u => CatalogRecord.mk "ck"
            (if u = "a" then 300 else if u = "b" then 400 else 500)
            "l" "m" u []) ((fun _ => 1000) "d"), spec.length ≤ 25000))
    ∧ ∀ b ∈ ((Picker.do_work_transfer_request (fun s => if s = 0 then
        [FileRef.mk "a", FileRef.mk "b", FileRef.mk "c"] else []) 1
        (fun u => CatalogRecord.mk "ck"
          (if u = "a" then 300 else if u = "b" then 400 else 500)
          "l" "m" u []) (fun _ => 1000) 25000
        (TransferRequest.mk "t" "s" "d" "/p")).bulkCreates).flatten,
        (b.files.map BundleRecord.file_size).sum ≤ 1000
        ∨ ∃ f, b.files = [f] ∧ 1000 < f.file_size := by
  refine ⟨⟨by decide, by decide⟩, ?_⟩
  exact (picker_bundles_partition_records (fun s => if s = 0 then
    [FileRef.mk "a", FileRef.mk "b", FileRef.mk "c"] else []) 1
    (fun u => CatalogRecord.mk "ck"
      (if u = "a" then 300 else if u = "b" then 400 else 500)
      "l" "m" u []) (fun _ => 1000) 25000
    (TransferRequest.mk "t" "s" "d" "/p") (by decide) (by decide)).2

end LTA
